import Mathlib

/-!
Verification of the bank-compliance-auditor pipeline.

The development shallowly embeds the JavaScript sources:
src/complianceChecker.js (threshold checker), src/auditor.js
(issue classifier and compliance scorer) and the Express report
download route of src/server.js.  Machine numbers are modelled by
Nat/Int (counts are non-negative; configured thresholds come from
parseInt and are modelled as Int), JavaScript Math.round on the
non-negative score by Mathlib round on Rat (round half up), and the
clock read (new Date().toISOString()) by an explicit argument.
-/

namespace BankAudit

/-- Configuration fields read by the auditor and the compliance
checker (src/config.js).  Fields not consumed by the embedded
functions (log, webhook, api keys) are omitted. -/
structure Config where
  wcagLevel : String
  wcagVersion : String
  maxCriticalIssues : Int
  maxSeriousIssues : Int
  maxModerateIssues : Int
  failOnSerious : Bool
  deriving DecidableEq

/-- Summary counts of an audit (auditor.js _processResults). -/
structure Summary where
  total : Nat
  critical : Nat
  serious : Nat
  moderate : Nat
  minor : Nat
  deriving DecidableEq

/-- The fields of the audit result that the compliance checker
reads: the summary counts and the compliance score. -/
structure AuditInput where
  summary : Summary
  compliance : Int
  deriving DecidableEq

/-- One metric check produced by the threshold checker
(complianceChecker.js, critical / serious / moderate). -/
structure ComplianceCheck where
  metric : String
  current : Nat
  threshold : Int
  passed : Bool
  message : String
  deriving DecidableEq

/-- The WCAG compliance check object, whose shape differs from the
threshold checks (complianceChecker.js _checkWCAGCompliance). -/
structure WCAGCheck where
  metric : String
  currentLevel : String
  compliant : Bool
  passed : Bool
  message : String
  deriving DecidableEq

/-- The checks record assembled inside check() in
complianceChecker.js: four check objects plus the numeric
complianceScore copied from the audit results. -/
structure Checks where
  criticalIssues : ComplianceCheck
  seriousIssues : ComplianceCheck
  moderateIssues : ComplianceCheck
  wcagCompliance : WCAGCheck
  complianceScore : Int
  deriving DecidableEq

/-- An entry of the report details list, which in the source is a
heterogeneous array mixing the two check shapes. -/
inductive CheckEntry where
  | std (c : ComplianceCheck)
  | wcag (w : WCAGCheck)
  deriving DecidableEq

/-- The passed flag of a report entry. -/
def CheckEntry.passed : CheckEntry → Bool
  | .std c => c.passed
  | .wcag w => w.passed

/-- The message of a report entry. -/
def CheckEntry.message : CheckEntry → String
  | .std c => c.message
  | .wcag w => w.message

/-- The report object of complianceChecker.js
_generateComplianceReport. -/
structure ComplianceReport where
  summary : List String
  details : List CheckEntry
  allChecksPassed : Bool
  deriving DecidableEq

/-- The value returned by ComplianceChecker.check. -/
structure ComplianceResult where
  passed : Bool
  checks : Checks
  timestamp : String
  report : ComplianceReport
  deriving DecidableEq

/-- complianceChecker.js _checkCriticalIssues: passed iff the
critical count is within the configured threshold. -/
def checkCriticalIssues (cfg : Config) (a : AuditInput) : ComplianceCheck :=
  let count := a.summary.critical
  let threshold := cfg.maxCriticalIssues
  let passed := decide ((count : Int) ≤ threshold)
  { metric := "Critical Issues"
    current := count
    threshold := threshold
    passed := passed
    message :=
      if passed then s!"✓ Critical issues within threshold ({count}/{threshold})"
      else s!"✗ Critical issues exceed threshold ({count}/{threshold})" }

/-- complianceChecker.js _checkSeriousIssues. -/
def checkSeriousIssues (cfg : Config) (a : AuditInput) : ComplianceCheck :=
  let count := a.summary.serious
  let threshold := cfg.maxSeriousIssues
  let passed := decide ((count : Int) ≤ threshold)
  { metric := "Serious Issues"
    current := count
    threshold := threshold
    passed := passed
    message :=
      if passed then s!"✓ Serious issues within threshold ({count}/{threshold})"
      else s!"✗ Serious issues exceed threshold ({count}/{threshold})" }

/-- complianceChecker.js _checkModerateIssues. -/
def checkModerateIssues (cfg : Config) (a : AuditInput) : ComplianceCheck :=
  let count := a.summary.moderate
  let threshold := cfg.maxModerateIssues
  let passed := decide ((count : Int) ≤ threshold)
  { metric := "Moderate Issues"
    current := count
    threshold := threshold
    passed := passed
    message :=
      if passed then s!"✓ Moderate issues within threshold ({count}/{threshold})"
      else s!"✗ Moderate issues exceed threshold ({count}/{threshold})" }

/-- complianceChecker.js _checkWCAGCompliance: passed iff the
critical count is exactly zero, independent of any threshold. -/
def checkWCAGCompliance (cfg : Config) (a : AuditInput) : WCAGCheck :=
  let passed := decide (a.summary.critical = 0)
  let level := cfg.wcagLevel
  let count := a.summary.critical
  { metric := "WCAG 2.1 Level AA Compliance"
    currentLevel := level
    compliant := passed
    passed := passed
    message :=
      if passed then s!"✓ WCAG 2.1 Level {level} Compliant"
      else s!"✗ WCAG 2.1 Level {level} Non-Compliant ({count} critical issues)" }

/-- The checks record built at the start of check(). -/
def mkChecks (cfg : Config) (a : AuditInput) : Checks :=
  { criticalIssues := checkCriticalIssues cfg a
    seriousIssues := checkSeriousIssues cfg a
    moderateIssues := checkModerateIssues cfg a
    wcagCompliance := checkWCAGCompliance cfg a
    complianceScore := a.compliance }

/-- complianceChecker.js _determineOverallPass. -/
def determineOverallPass (cfg : Config) (checks : Checks) : Bool :=
  if !checks.criticalIssues.passed then false
  else if cfg.failOnSerious && !checks.seriousIssues.passed then false
  else true

/-- Object.values of the checks record in insertion order, after the
source filter on check.message: the numeric complianceScore entry has
no message field and is dropped, leaving the four check objects. -/
def checkEntries (checks : Checks) : List CheckEntry :=
  [.std checks.criticalIssues, .std checks.seriousIssues,
   .std checks.moderateIssues, .wcag checks.wcagCompliance]

/-- complianceChecker.js _generateComplianceReport. -/
def generateComplianceReport (checks : Checks) : ComplianceReport :=
  { summary := (checkEntries checks).map CheckEntry.message
    details := checkEntries checks
    allChecksPassed := (checkEntries checks).all CheckEntry.passed }

/-- ComplianceChecker.check.  The timestamp field is
new Date().toISOString() in the source; the clock reading is made an
explicit argument now. -/
def check (cfg : Config) (a : AuditInput) (now : String) : ComplianceResult :=
  let checks := mkChecks cfg a
  { passed := determineOverallPass cfg checks
    checks := checks
    timestamp := now
    report := generateComplianceReport checks }

/-- A raw finding emitted by the scan engine (a pa11y issue as read
by auditor.js: code, message, type and selector). -/
structure Finding where
  code : String
  message : String
  type : String
  selector : String
  deriving DecidableEq

/-- An issue after classification and WCAG enrichment
(auditor.js _processResults pushes objects of this shape). -/
structure Issue where
  code : String
  message : String
  type : String
  selector : String
  wcagLevel : String
  wcagCriteria : String
  deriving DecidableEq

/-- The four severity buckets of categorized issues. -/
structure IssueSet where
  critical : List Issue
  serious : List Issue
  moderate : List Issue
  minor : List Issue
  deriving DecidableEq

/-- The value returned by the scan engine as consumed by
_processResults: the document title and the flat list of issues. -/
structure ScanResult where
  documentTitle : String
  issues : List Finding
  deriving DecidableEq

/-- The audit result assembled by auditor.js _processResults. -/
structure AuditResult where
  url : String
  timestamp : String
  wcagLevel : String
  wcagVersion : String
  summary : Summary
  issues : IssueSet
  status : String
  compliance : Int
  deriving DecidableEq

/-- auditor.js _getWCAGLevel: static rule-code lookup with default
level AA for unknown codes. -/
def getWCAGLevel (code : String) : String :=
  if code = "image-alt" then "A"
  else if code = "color-contrast" then "AA"
  else if code = "heading-order" then "A"
  else if code = "label" then "A"
  else if code = "button-name" then "A"
  else if code = "link-name" then "A"
  else if code = "form-field-multiple-labels" then "A"
  else if code = "duplicate-id" then "A"
  else if code = "aria-required-attr" then "A"
  else if code = "aria-valid-attr" then "A"
  else if code = "select-name" then "A"
  else if code = "textarea-name" then "A"
  else "AA"

/-- auditor.js _getWCAGCriteria: static rule-code lookup with a
generic default criterion for unknown codes. -/
def getWCAGCriteria (code : String) : String :=
  if code = "image-alt" then "WCAG 2.1 Level A - 1.1.1 Non-text Content"
  else if code = "color-contrast" then "WCAG 2.1 Level AA - 1.4.3 Contrast (Minimum)"
  else if code = "heading-order" then "WCAG 2.1 Level A - 1.3.1 Info and Relationships"
  else if code = "label" then "WCAG 2.1 Level A - 1.3.1 Info and Relationships"
  else if code = "button-name" then "WCAG 2.1 Level A - 4.1.2 Name, Role, Value"
  else if code = "link-name" then "WCAG 2.1 Level A - 4.1.2 Name, Role, Value"
  else if code = "form-field-multiple-labels" then
    "WCAG 2.1 Level A - 1.3.1 Info and Relationships"
  else if code = "duplicate-id" then "WCAG 2.1 Level A - 4.1.1 Parsing"
  else if code = "aria-required-attr" then "WCAG 2.1 Level A - 4.1.2 Name, Role, Value"
  else if code = "aria-valid-attr" then "WCAG 2.1 Level A - 4.1.2 Name, Role, Value"
  else if code = "select-name" then "WCAG 2.1 Level A - 4.1.2 Name, Role, Value"
  else if code = "textarea-name" then "WCAG 2.1 Level A - 4.1.2 Name, Role, Value"
  else "WCAG 2.1 Level A - General Accessibility"

/-- The issue object pushed into a bucket for one finding
(auditor.js _processResults, body of the forEach). -/
def mkIssue (f : Finding) : Issue :=
  { code := f.code
    message := f.message
    type := f.type
    selector := f.selector
    wcagLevel := getWCAGLevel f.code
    wcagCriteria := getWCAGCriteria f.code }

/-- The severityMap lookup with the minor default
(severityMap[issue.type] || minor), restricted to severity strings
that are not inherited Object.prototype member names; on such a
member name the real JavaScript lookup returns the inherited truthy
member instead of undefined and the push throws, which is modelled
faithfully by classifyStepJS and categorizeJS below. -/
def severityMap (t : String) : String :=
  if t = "error" then "critical"
  else if t = "warning" then "serious"
  else if t = "notice" then "moderate"
  else if t = "info" then "minor"
  else "minor"

/-- issues[category].push(...): append the issue to the bucket named
by the category. -/
def addToBucket (s : IssueSet) (category : String) (i : Issue) : IssueSet :=
  if category = "critical" then { s with critical := s.critical ++ [i] }
  else if category = "serious" then { s with serious := s.serious ++ [i] }
  else if category = "moderate" then { s with moderate := s.moderate ++ [i] }
  else { s with minor := s.minor ++ [i] }

/-- One step of the forEach over the findings. -/
def classifyStep (s : IssueSet) (f : Finding) : IssueSet :=
  addToBucket s (severityMap f.type) (mkIssue f)

/-- The categorization loop of _processResults: fold the findings
into the four (initially empty) buckets. -/
def categorize (findings : List Finding) : IssueSet :=
  findings.foldl classifyStep ⟨[], [], [], []⟩

/-- Total number of issues held in an IssueSet
(Object.values(issues).reduce of the bucket lengths). -/
def sizes (s : IssueSet) : Nat :=
  s.critical.length + s.serious.length + s.moderate.length + s.minor.length

/-- auditor.js _determineStatus: FAILED when critical issues exceed
the threshold, or when failOnSerious is set and serious issues exceed
their threshold; PASSED otherwise. -/
def determineStatus (cfg : Config) (issues : IssueSet) : String :=
  if (issues.critical.length : Int) > cfg.maxCriticalIssues then "FAILED"
  else if cfg.failOnSerious && (issues.serious.length : Int) > cfg.maxSeriousIssues then
    "FAILED"
  else "PASSED"

/-- auditor.js _calculateCompliance: 100 when there are no issues,
otherwise the rounded percentage left after the weighted penalty
(critical 100, serious 50, moderate 20, minor 5 points). -/
def calculateCompliance (issues : IssueSet) : Int :=
  let total := sizes issues
  if total = 0 then 100
  else
    let points := issues.critical.length * 100 + issues.serious.length * 50 +
      issues.moderate.length * 20 + issues.minor.length * 5
    let maxPoints := total * 100
    round ((((maxPoints : ℚ) - (points : ℚ)) / (maxPoints : ℚ)) * 100)

/-- The summary counts of an IssueSet, as built by _processResults
from the bucket lengths. -/
def summaryOf (totalFindings : Nat) (issues : IssueSet) : Summary :=
  { total := totalFindings
    critical := issues.critical.length
    serious := issues.serious.length
    moderate := issues.moderate.length
    minor := issues.minor.length }

/-- auditor.js _processResults: categorize the findings and assemble
the audit result.  The url field is set from the document title of
the scan result; now stands for new Date().toISOString(). -/
def processResults (cfg : Config) (now : String) (r : ScanResult) : AuditResult :=
  let issues := categorize r.issues
  { url := r.documentTitle
    timestamp := now
    wcagLevel := cfg.wcagLevel
    wcagVersion := cfg.wcagVersion
    summary := summaryOf r.issues.length issues
    issues := issues
    status := determineStatus cfg issues
    compliance := calculateCompliance issues }

/-- auditor.js audit: the requested url is handed to the scan engine
and the engine result is processed; the url argument itself is not
used when assembling the audit result. -/
def audit (cfg : Config) (now : String) (url : String) (engineResult : ScanResult) :
    AuditResult :=
  processResults cfg now engineResult

/-- The member names an object literal inherits from Object.prototype
in Node: a property read with one of these keys on the severityMap or
issues literals yields the inherited member, not undefined. -/
def protoKeys : List String :=
  ["constructor", "hasOwnProperty", "isPrototypeOf", "propertyIsEnumerable",
   "toLocaleString", "toString", "valueOf", "__defineGetter__",
   "__defineSetter__", "__lookupGetter__", "__lookupSetter__", "__proto__"]

/-- The own properties of the severityMap object literal in
auditor.js: exactly the four recognized engine severities. -/
def severityMapOwn (t : String) : Option String :=
  if t = "error" then some "critical"
  else if t = "warning" then some "serious"
  else if t = "notice" then some "moderate"
  else if t = "info" then some "minor"
  else none

/-- One iteration of the forEach in _processResults under full
JavaScript property-lookup semantics.  severityMap[issue.type] yields
the own bucket name when issue.type is a recognized severity; when
issue.type names an inherited Object.prototype member the lookup
yields that member, which is truthy, so the or-default does not
apply, issues[category] is undefined and .push throws a TypeError;
for any other string the lookup is undefined and the or-default
classifies the finding as minor. -/
def classifyStepJS (s : IssueSet) (f : Finding) : Except String IssueSet :=
  match severityMapOwn f.type with
  | some category => .ok (addToBucket s category (mkIssue f))
  | none =>
    if f.type ∈ protoKeys then .error "TypeError"
    else .ok (addToBucket s "minor" (mkIssue f))

/-- The categorization loop of _processResults under full JavaScript
property-lookup semantics: the fold aborts with the thrown TypeError
as soon as a finding carries an inherited-member severity. -/
def categorizeJS : List Finding → IssueSet → Except String IssueSet
  | [], s => .ok s
  | f :: rest, s =>
    match classifyStepJS s f with
    | .ok s2 => categorizeJS rest s2
    | .error e => .error e

/-- Node path.join segment normalization: single-dot segments vanish
and double-dot segments remove the preceding segment. -/
def normalizeSegs (segs : List String) : List String :=
  segs.foldl (fun acc seg =>
    if seg = "." then acc
    else if seg = ".." then acc.dropLast
    else acc ++ [seg]) []

/-- The state seen by the report download route of src/server.js: the
resolved reports directory and the set of existing file paths. -/
structure ServerCtx where
  reportsDir : List String
  existingFiles : List (List String)
  deriving DecidableEq

/-- The response of the download route: res.download of the resolved
path, or the 404 report-not-found reply. -/
inductive ReportResponse where
  | download (filepath : List String)
  | notFound
  deriving DecidableEq

/-- The report download handler in src/server.js: it joins the
reports directory with the filename route parameter and serves the
resolved path with res.download whenever the file exists, answering
404 otherwise.  Express percent-decodes the parameter, so the
filename may carry dot-dot and slash segments; the handler applies no
containment check on the resolved path. -/
def downloadReport (ctx : ServerCtx) (filename : List String) : ReportResponse :=
  let filepath := normalizeSegs (ctx.reportsDir ++ filename)
  if filepath ∈ ctx.existingFiles then .download filepath else .notFound

/-- The pre-rounding score of _calculateCompliance as a function of
the four bucket counts. -/
def scoreQ (c s m n : ℕ) : ℚ :=
  ((((c + s + m + n) * 100 : ℕ) : ℚ) -
      ((c * 100 + s * 50 + m * 20 + n * 5 : ℕ) : ℚ)) /
    (((c + s + m + n) * 100 : ℕ) : ℚ) * 100

/-- Appending one issue to a bucket grows the total size by one. -/
lemma sizes_addToBucket (s : IssueSet) (category : String) (i : Issue) :
    sizes (addToBucket s category i) = sizes s + 1 := by
  unfold addToBucket
  split_ifs <;> simp [sizes] <;> omega

/-- The categorization fold grows the total size by one per finding:
no finding is dropped and none lands in two buckets. -/
lemma sizes_foldl (l : List Finding) :
    ∀ acc : IssueSet, sizes (l.foldl classifyStep acc) = sizes acc + l.length := by
  induction l with
  | nil => intro acc; simp
  | cons f t ih =>
    intro acc
    have h := ih (classifyStep acc f)
    have hstep : sizes (classifyStep acc f) = sizes acc + 1 := by
      simp [classifyStep, sizes_addToBucket]
    rw [List.foldl_cons, h, hstep, List.length_cons]
    omega

/-- Monotonicity of rounding on the rationals. -/
lemma round_mono_rat {x y : ℚ} (h : x ≤ y) : round x ≤ round y := by
  rw [round_eq, round_eq]
  exact Int.floor_le_floor (by linarith)

/-- On a non-empty IssueSet, _calculateCompliance rounds the
pre-rounding score of its bucket counts. -/
lemma calculateCompliance_eq_round (issues : IssueSet) (h : sizes issues ≠ 0) :
    calculateCompliance issues =
      round (scoreQ issues.critical.length issues.serious.length
        issues.moderate.length issues.minor.length) := by
  rw [show calculateCompliance issues =
      if sizes issues = 0 then 100
      else round (scoreQ issues.critical.length issues.serious.length
        issues.moderate.length issues.minor.length) from rfl,
    if_neg h]

/-- Bounds on the pre-rounding score: it lies between 0 and 95 once
at least one issue is present. -/
lemma scoreQ_bounds (c s m n : ℕ) (h : c + s + m + n ≠ 0) :
    0 ≤ scoreQ c s m n ∧ scoreQ c s m n ≤ 95 := by
  have hpos : 0 < c + s + m + n := Nat.pos_of_ne_zero h
  have hD : (0 : ℚ) < (((c + s + m + n) * 100 : ℕ) : ℚ) := by
    have : (0 : ℕ) < (c + s + m + n) * 100 := by omega
    exact_mod_cast this
  constructor
  · apply mul_nonneg _ (by norm_num)
    apply div_nonneg _ hD.le
    have : (c * 100 + s * 50 + m * 20 + n * 5 : ℕ) ≤ (c + s + m + n) * 100 := by omega
    have h2 : ((c * 100 + s * 50 + m * 20 + n * 5 : ℕ) : ℚ) ≤
        (((c + s + m + n) * 100 : ℕ) : ℚ) := by exact_mod_cast this
    linarith
  · rw [scoreQ, div_mul_eq_mul_div, div_le_iff hD]
    have h5 : ((n * 5 + m * 5 + s * 5 + c * 5 : ℕ) : ℚ) ≤
        ((c * 100 + s * 50 + m * 20 + n * 5 : ℕ) : ℚ) := by
      exact_mod_cast (by omega : (n * 5 + m * 5 + s * 5 + c * 5 : ℕ) ≤
        c * 100 + s * 50 + m * 20 + n * 5)
    push_cast at h5 ⊢
    nlinarith [h5]

/-- Adding one critical issue lowers the pre-rounding score at least
as much as adding one minor issue, at equal remaining counts. -/
lemma scoreQ_add_critical_le_add_minor (c s m n : ℕ) :
    scoreQ (c + 1) s m n ≤ scoreQ c s m (n + 1) := by
  have hD : (0 : ℚ) < (((c + 1 + s + m + n) * 100 : ℕ) : ℚ) := by
    exact_mod_cast (by omega : (0 : ℕ) < (c + 1 + s + m + n) * 100)
  have hDeq : (((c + s + m + (n + 1)) * 100 : ℕ) : ℚ) =
      (((c + 1 + s + m + n) * 100 : ℕ) : ℚ) := by
    norm_cast
    omega
  rw [scoreQ, scoreQ, hDeq]
  apply mul_le_mul_of_nonneg_right _ (by norm_num : (0 : ℚ) ≤ 100)
  rw [div_le_div_right hD]
  apply sub_le_sub_left
  exact_mod_cast (by omega : c * 100 + s * 50 + m * 20 + (n + 1) * 5 ≤
    (c + 1) * 100 + s * 50 + m * 20 + n * 5)

/-- C1: the overall passed flag returned by check() is true exactly
when the critical count is within maxCriticalIssues and, whenever
failOnSerious is set, the serious count is within maxSeriousIssues;
the moderate and WCAG checks never influence it. -/
theorem C1_overall_pass_iff (cfg : Config) (a : AuditInput) (now : String) :
    (check cfg a now).passed = true ↔
      ((a.summary.critical : Int) ≤ cfg.maxCriticalIssues ∧
        (cfg.failOnSerious = false ∨ (a.summary.serious : Int) ≤ cfg.maxSeriousIssues)) := by
  by_cases h1 : (a.summary.critical : Int) ≤ cfg.maxCriticalIssues <;>
    by_cases h2 : cfg.failOnSerious <;>
      by_cases h3 : (a.summary.serious : Int) ≤ cfg.maxSeriousIssues <;>
        simp [check, mkChecks, determineOverallPass, checkCriticalIssues,
          checkSeriousIssues, h1, h2, h3]

/-- C2: the claim that the report download endpoint refuses every
filename resolving outside the report directory fails on the code:
for the traversal filename dot-dot slash dot-dot slash etc passwd the
handler resolves to a path outside the reports directory and serves
it with res.download when such a file exists, instead of rejecting
the request. -/
theorem C2_path_traversal_served :
    downloadReport ⟨["app", "reports"], [["etc", "passwd"]]⟩
        ["..", "..", "etc", "passwd"] =
      ReportResponse.download ["etc", "passwd"] ∧
    (∀ rest : List String, ["app", "reports"] ++ rest ≠ ["etc", "passwd"]) := by
  refine ⟨by decide, fun rest h => ?_⟩
  injection h with h1 h2
  exact absurd h1 (by decide)

/-- C3: for every IssueSet the compliance score lies between 0 and
100, equals 100 exactly when there are no issues, and on a non-empty
set equals the rounded weighted-penalty percentage. -/
theorem C3_compliance_score_bounds (issues : IssueSet) :
    0 ≤ calculateCompliance issues ∧
    calculateCompliance issues ≤ 100 ∧
    (calculateCompliance issues = 100 ↔ sizes issues = 0) ∧
    (sizes issues ≠ 0 →
      calculateCompliance issues =
        round ((((100 * sizes issues : ℕ) : ℚ) -
            ((100 * issues.critical.length + 50 * issues.serious.length +
                20 * issues.moderate.length + 5 * issues.minor.length : ℕ) : ℚ)) /
          ((100 * sizes issues : ℕ) : ℚ) * 100)) := by
  by_cases h : sizes issues = 0
  · refine ⟨by simp [calculateCompliance, h], by simp [calculateCompliance, h],
      by simp [calculateCompliance, h], fun hne => absurd h hne⟩
  · have heq := calculateCompliance_eq_round issues h
    have hb := scoreQ_bounds issues.critical.length issues.serious.length
      issues.moderate.length issues.minor.length (by simpa [sizes] using h)
    have h0 : (0 : ℤ) ≤ calculateCompliance issues := by
      rw [heq]
      calc (0 : ℤ) = round (0 : ℚ) := by rw [round_zero]
        _ ≤ _ := round_mono_rat hb.1
    have h95 : calculateCompliance issues ≤ 95 := by
      rw [heq]
      calc round (scoreQ issues.critical.length issues.serious.length
            issues.moderate.length issues.minor.length) ≤ round ((95 : ℚ)) :=
          round_mono_rat hb.2
        _ = 95 := by
          rw [show ((95 : ℚ)) = (((95 : ℤ)) : ℚ) by norm_num, round_intCast]
    refine ⟨h0, by omega, ⟨fun h100 => by omega, fun h0' => absurd h0' h⟩, fun _ => ?_⟩
    rw [heq]
    congr 1
    rw [scoreQ]
    congr 2 <;> push_cast [sizes] <;> ring

/-- C3 witness: the bounds and the rounded formula evaluated at a
concrete IssueSet holding one serious and one minor issue. -/
theorem C3_compliance_score_bounds_witness :
    0 ≤ calculateCompliance ⟨[], [⟨"c", "m", "warning", "p", "A", "w"⟩], [],
        [⟨"d", "m", "info", "q", "A", "w"⟩]⟩ ∧
    calculateCompliance ⟨[], [⟨"c", "m", "warning", "p", "A", "w"⟩], [],
        [⟨"d", "m", "info", "q", "A", "w"⟩]⟩ =
      round ((((100 * sizes ⟨[], [⟨"c", "m", "warning", "p", "A", "w"⟩], [],
            [⟨"d", "m", "info", "q", "A", "w"⟩]⟩ : ℕ) : ℚ) -
          ((100 * 0 + 50 * 1 + 20 * 0 + 5 * 1 : ℕ) : ℚ)) /
        ((100 * sizes ⟨[], [⟨"c", "m", "warning", "p", "A", "w"⟩], [],
            [⟨"d", "m", "info", "q", "A", "w"⟩]⟩ : ℕ) : ℚ) * 100) :=
  ⟨(C3_compliance_score_bounds ⟨[], [⟨"c", "m", "warning", "p", "A", "w"⟩], [],
      [⟨"d", "m", "info", "q", "A", "w"⟩]⟩).1,
   (C3_compliance_score_bounds ⟨[], [⟨"c", "m", "warning", "p", "A", "w"⟩], [],
      [⟨"d", "m", "info", "q", "A", "w"⟩]⟩).2.2.2 (by decide)⟩

/-- A finding whose severity avoids the inherited member names is
classified without throwing, exactly as the total model does. -/
lemma classifyStepJS_eq_ok (s : IssueSet) (f : Finding) (hf : f.type ∉ protoKeys) :
    classifyStepJS s f = Except.ok (classifyStep s f) := by
  by_cases h1 : f.type = "error"
  · simp [classifyStepJS, classifyStep, severityMapOwn, severityMap, h1]
  · by_cases h2 : f.type = "warning"
    · simp [classifyStepJS, classifyStep, severityMapOwn, severityMap, h1, h2]
    · by_cases h3 : f.type = "notice"
      · simp [classifyStepJS, classifyStep, severityMapOwn, severityMap, h1, h2, h3]
      · by_cases h4 : f.type = "info"
        · simp [classifyStepJS, classifyStep, severityMapOwn, severityMap, h1, h2, h3, h4]
        · simp [classifyStepJS, classifyStep, severityMapOwn, severityMap,
            h1, h2, h3, h4, hf]

/-- On finding lists free of inherited-member severities, the
JavaScript-semantics categorization succeeds and agrees with the
total categorization fold. -/
lemma categorizeJS_eq_ok : ∀ (l : List Finding) (acc : IssueSet),
    (∀ f ∈ l, f.type ∉ protoKeys) →
    categorizeJS l acc = Except.ok (l.foldl classifyStep acc) := by
  intro l
  induction l with
  | nil => intro acc _; rfl
  | cons f t ih =>
    intro acc h
    have hf : f.type ∉ protoKeys := h f (List.mem_cons_self f t)
    have ht : ∀ g ∈ t, g.type ∉ protoKeys := fun g hg => h g (List.mem_cons_of_mem f hg)
    simp only [categorizeJS, classifyStepJS_eq_ok acc f hf, List.foldl_cons]
    exact ih (classifyStep acc f) ht

/-- C4 counterexample: a finding whose engine severity is toString is
not a recognized severity, yet names an inherited Object.prototype
member, so the classification loop throws a TypeError instead of
defaulting the finding to minor; the claim that classification never
throws for any engineSeverity string is therefore false on the code. -/
theorem C4_prototype_throw_counterexample :
    categorizeJS [⟨"image-alt", "m", "toString", "img"⟩] ⟨[], [], [], []⟩ =
      Except.error "TypeError" ∧
    severityMapOwn "toString" = none ∧
    "toString" ∈ protoKeys :=
  ⟨rfl, rfl, by decide⟩

/-- C4 amended: for every list of raw findings whose engine
severities are not inherited Object.prototype member names,
classification assigns each finding to exactly one bucket without
throwing and without dropping a finding, agreeing with the total
categorization used by _processResults, so summary.total equals the
sum of the four summary counts and each count equals its bucket
length; one classification step sends error to critical, warning to
serious, notice to moderate, info to minor, and any other
non-inherited severity to minor. -/
theorem C4_classification_amended (cfg : Config) (now : String) (r : ScanResult)
    (h : ∀ f ∈ r.issues, f.type ∉ protoKeys) :
    categorizeJS r.issues ⟨[], [], [], []⟩ =
      Except.ok (processResults cfg now r).issues ∧
    ((processResults cfg now r).summary.total =
        (processResults cfg now r).summary.critical +
        (processResults cfg now r).summary.serious +
        (processResults cfg now r).summary.moderate +
        (processResults cfg now r).summary.minor) ∧
    (processResults cfg now r).summary.critical =
      (processResults cfg now r).issues.critical.length ∧
    (processResults cfg now r).summary.serious =
      (processResults cfg now r).issues.serious.length ∧
    (processResults cfg now r).summary.moderate =
      (processResults cfg now r).issues.moderate.length ∧
    (processResults cfg now r).summary.minor =
      (processResults cfg now r).issues.minor.length ∧
    (∀ (s : IssueSet) (f : Finding), f.type = "error" →
      classifyStepJS s f = Except.ok (addToBucket s "critical" (mkIssue f))) ∧
    (∀ (s : IssueSet) (f : Finding), f.type = "warning" →
      classifyStepJS s f = Except.ok (addToBucket s "serious" (mkIssue f))) ∧
    (∀ (s : IssueSet) (f : Finding), f.type = "notice" →
      classifyStepJS s f = Except.ok (addToBucket s "moderate" (mkIssue f))) ∧
    (∀ (s : IssueSet) (f : Finding), f.type = "info" →
      classifyStepJS s f = Except.ok (addToBucket s "minor" (mkIssue f))) ∧
    (∀ (s : IssueSet) (f : Finding), f.type ∉ protoKeys →
      f.type ≠ "error" → f.type ≠ "warning" → f.type ≠ "notice" → f.type ≠ "info" →
      classifyStepJS s f = Except.ok (addToBucket s "minor" (mkIssue f))) := by
  refine ⟨categorizeJS_eq_ok r.issues ⟨[], [], [], []⟩ h, ?_, rfl, rfl, rfl, rfl,
    ?_, ?_, ?_, ?_, ?_⟩
  · have hs := sizes_foldl r.issues ⟨[], [], [], []⟩
    simp [sizes] at hs
    simp [processResults, summaryOf, categorize, sizes]
    omega
  · intro s f hf
    simp [classifyStepJS, severityMapOwn, hf]
  · intro s f hf
    simp [classifyStepJS, severityMapOwn, hf]
  · intro s f hf
    simp [classifyStepJS, severityMapOwn, hf]
  · intro s f hf
    simp [classifyStepJS, severityMapOwn, hf]
  · intro s f h0 h1 h2 h3 h4
    simp [classifyStepJS, severityMapOwn, h0, h1, h2, h3, h4]

/-- C4 witness: the agreement with the total categorization and the
conservation equation evaluated on a concrete scan result with one
finding of each recognized severity plus one unrecognized, and the
minor default evaluated at the unrecognized severity. -/
theorem C4_classification_amended_witness :
    categorizeJS [⟨"image-alt", "m", "error", "img"⟩,
        ⟨"color-contrast", "m", "warning", "p"⟩,
        ⟨"heading-order", "m", "notice", "h2"⟩,
        ⟨"xyz", "m", "info", "div"⟩,
        ⟨"xyz", "m", "bogus", "div"⟩] ⟨[], [], [], []⟩ =
      Except.ok (processResults ⟨"AA", "2.1", 0, 5, 15, true⟩ "t"
        ⟨"Page", [⟨"image-alt", "m", "error", "img"⟩,
          ⟨"color-contrast", "m", "warning", "p"⟩,
          ⟨"heading-order", "m", "notice", "h2"⟩,
          ⟨"xyz", "m", "info", "div"⟩,
          ⟨"xyz", "m", "bogus", "div"⟩]⟩).issues ∧
    (processResults ⟨"AA", "2.1", 0, 5, 15, true⟩ "t"
        ⟨"Page", [⟨"image-alt", "m", "error", "img"⟩,
          ⟨"color-contrast", "m", "warning", "p"⟩,
          ⟨"heading-order", "m", "notice", "h2"⟩,
          ⟨"xyz", "m", "info", "div"⟩,
          ⟨"xyz", "m", "bogus", "div"⟩]⟩).summary.total =
      (processResults ⟨"AA", "2.1", 0, 5, 15, true⟩ "t"
        ⟨"Page", [⟨"image-alt", "m", "error", "img"⟩,
          ⟨"color-contrast", "m", "warning", "p"⟩,
          ⟨"heading-order", "m", "notice", "h2"⟩,
          ⟨"xyz", "m", "info", "div"⟩,
          ⟨"xyz", "m", "bogus", "div"⟩]⟩).summary.critical +
      (processResults ⟨"AA", "2.1", 0, 5, 15, true⟩ "t"
        ⟨"Page", [⟨"image-alt", "m", "error", "img"⟩,
          ⟨"color-contrast", "m", "warning", "p"⟩,
          ⟨"heading-order", "m", "notice", "h2"⟩,
          ⟨"xyz", "m", "info", "div"⟩,
          ⟨"xyz", "m", "bogus", "div"⟩]⟩).summary.serious +
      (processResults ⟨"AA", "2.1", 0, 5, 15, true⟩ "t"
        ⟨"Page", [⟨"image-alt", "m", "error", "img"⟩,
          ⟨"color-contrast", "m", "warning", "p"⟩,
          ⟨"heading-order", "m", "notice", "h2"⟩,
          ⟨"xyz", "m", "info", "div"⟩,
          ⟨"xyz", "m", "bogus", "div"⟩]⟩).summary.moderate +
      (processResults ⟨"AA", "2.1", 0, 5, 15, true⟩ "t"
        ⟨"Page", [⟨"image-alt", "m", "error", "img"⟩,
          ⟨"color-contrast", "m", "warning", "p"⟩,
          ⟨"heading-order", "m", "notice", "h2"⟩,
          ⟨"xyz", "m", "info", "div"⟩,
          ⟨"xyz", "m", "bogus", "div"⟩]⟩).summary.minor ∧
    classifyStepJS ⟨[], [], [], []⟩ ⟨"xyz", "m", "bogus", "div"⟩ =
      Except.ok (addToBucket ⟨[], [], [], []⟩ "minor"
        (mkIssue ⟨"xyz", "m", "bogus", "div"⟩)) :=
  ⟨(C4_classification_amended ⟨"AA", "2.1", 0, 5, 15, true⟩ "t"
      ⟨"Page", [⟨"image-alt", "m", "error", "img"⟩,
        ⟨"color-contrast", "m", "warning", "p"⟩,
        ⟨"heading-order", "m", "notice", "h2"⟩,
        ⟨"xyz", "m", "info", "div"⟩,
        ⟨"xyz", "m", "bogus", "div"⟩]⟩ (by decide)).1,
   (C4_classification_amended ⟨"AA", "2.1", 0, 5, 15, true⟩ "t"
      ⟨"Page", [⟨"image-alt", "m", "error", "img"⟩,
        ⟨"color-contrast", "m", "warning", "p"⟩,
        ⟨"heading-order", "m", "notice", "h2"⟩,
        ⟨"xyz", "m", "info", "div"⟩,
        ⟨"xyz", "m", "bogus", "div"⟩]⟩ (by decide)).2.1,
   (C4_classification_amended ⟨"AA", "2.1", 0, 5, 15, true⟩ "t"
      ⟨"Page", [⟨"image-alt", "m", "error", "img"⟩,
        ⟨"color-contrast", "m", "warning", "p"⟩,
        ⟨"heading-order", "m", "notice", "h2"⟩,
        ⟨"xyz", "m", "info", "div"⟩,
        ⟨"xyz", "m", "bogus", "div"⟩]⟩ (by decide)).2.2.2.2.2.2.2.2.2.2
     ⟨[], [], [], []⟩ ⟨"xyz", "m", "bogus", "div"⟩ (by decide) (by decide)
     (by decide) (by decide) (by decide)⟩

/-- C5: the scorer status and the threshold checker overall pass
agree: _determineStatus returns PASSED exactly when
_determineOverallPass on the summary counts of the same IssueSet
under the same configuration returns true. -/
theorem C5_status_equiv (cfg : Config) (issues : IssueSet) :
    determineStatus cfg issues = "PASSED" ↔
      determineOverallPass cfg
        (mkChecks cfg ⟨summaryOf (sizes issues) issues, calculateCompliance issues⟩) =
        true := by
  by_cases h1 : (issues.critical.length : Int) ≤ cfg.maxCriticalIssues <;>
    by_cases h2 : cfg.failOnSerious <;>
      by_cases h3 : (issues.serious.length : Int) ≤ cfg.maxSeriousIssues <;>
        simp [determineStatus, determineOverallPass, mkChecks, checkCriticalIssues,
          checkSeriousIssues, summaryOf, h1, h2, h3, not_le.2, lt_iff_not_le]

/-- C10: the url field of the audit result produced for a scan is the
document title returned by the scan engine, not the url that was
requested; at a concrete scan whose document title differs from the
requested url, the two disagree. -/
theorem C10_url_is_document_title :
    (∀ (cfg : Config) (now url : String) (r : ScanResult),
      (audit cfg now url r).url = r.documentTitle) ∧
    (audit ⟨"AA", "2.1", 0, 5, 15, true⟩ "t" "https://bank.example.com"
        ⟨"Online Banking Portal", []⟩).url ≠ "https://bank.example.com" :=
  ⟨fun _ _ _ _ => rfl, by decide⟩

/-- C7 counterexample: with a base of 189 minor issues, adding one
critical issue gives compliance round(94.5) = 95, the same score as
adding one minor issue (round(95) = 95), so the critical-added score
is not strictly lower. -/
theorem C7_strict_counterexample :
    (IssueSet.mk [⟨"c", "m", "error", "s", "A", "w"⟩] [] []
        (List.replicate 189 ⟨"c", "m", "info", "s", "AA", "w"⟩)).critical.length =
      (IssueSet.mk [] [] []
        (List.replicate 190 ⟨"c", "m", "info", "s", "AA", "w"⟩)).critical.length + 1 ∧
    (IssueSet.mk [⟨"c", "m", "error", "s", "A", "w"⟩] [] []
        (List.replicate 189 ⟨"c", "m", "info", "s", "AA", "w"⟩)).serious.length =
      (IssueSet.mk [] [] []
        (List.replicate 190 ⟨"c", "m", "info", "s", "AA", "w"⟩)).serious.length ∧
    (IssueSet.mk [⟨"c", "m", "error", "s", "A", "w"⟩] [] []
        (List.replicate 189 ⟨"c", "m", "info", "s", "AA", "w"⟩)).moderate.length =
      (IssueSet.mk [] [] []
        (List.replicate 190 ⟨"c", "m", "info", "s", "AA", "w"⟩)).moderate.length ∧
    (IssueSet.mk [] [] []
        (List.replicate 190 ⟨"c", "m", "info", "s", "AA", "w"⟩)).minor.length =
      (IssueSet.mk [⟨"c", "m", "error", "s", "A", "w"⟩] [] []
        (List.replicate 189 ⟨"c", "m", "info", "s", "AA", "w"⟩)).minor.length + 1 ∧
    calculateCompliance (IssueSet.mk [⟨"c", "m", "error", "s", "A", "w"⟩] [] []
      (List.replicate 189 ⟨"c", "m", "info", "s", "AA", "w"⟩)) = 95 ∧
    calculateCompliance (IssueSet.mk [] [] []
      (List.replicate 190 ⟨"c", "m", "info", "s", "AA", "w"⟩)) = 95 ∧
    ¬(calculateCompliance (IssueSet.mk [⟨"c", "m", "error", "s", "A", "w"⟩] [] []
        (List.replicate 189 ⟨"c", "m", "info", "s", "AA", "w"⟩)) <
      calculateCompliance (IssueSet.mk [] [] []
        (List.replicate 190 ⟨"c", "m", "info", "s", "AA", "w"⟩))) := by
  have hX : calculateCompliance (IssueSet.mk [⟨"c", "m", "error", "s", "A", "w"⟩] [] []
      (List.replicate 189 ⟨"c", "m", "info", "s", "AA", "w"⟩)) = 95 := by
    rw [calculateCompliance_eq_round _ (by
      unfold sizes
      simp only [List.length_cons, List.length_nil, List.length_replicate]
      omega)]
    simp only [List.length_cons, List.length_nil, List.length_replicate]
    rw [show scoreQ 1 0 0 189 = 189 / 2 by norm_num [scoreQ], round_eq]
    norm_num
  have hY : calculateCompliance (IssueSet.mk [] [] []
      (List.replicate 190 ⟨"c", "m", "info", "s", "AA", "w"⟩)) = 95 := by
    rw [calculateCompliance_eq_round _ (by
      unfold sizes
      simp only [List.length_cons, List.length_nil, List.length_replicate]
      omega)]
    simp only [List.length_cons, List.length_nil, List.length_replicate]
    rw [show scoreQ 0 0 0 190 = 95 by norm_num [scoreQ], round_eq]
    norm_num
  refine ⟨by simp only [List.length_cons, List.length_nil, List.length_replicate],
    rfl, rfl,
    by simp only [List.length_cons, List.length_nil, List.length_replicate],
    hX, hY, ?_⟩
  rw [hX, hY]
  omega

/-- C7 amended: for two IssueSets that agree except that one has one
additional critical issue and the other one additional minor issue,
the critical-added score is at most the minor-added score; rounding
can make the two scores equal. -/
theorem C7_weighting_monotone (X Y : IssueSet)
    (hc : X.critical.length = Y.critical.length + 1)
    (hs : X.serious.length = Y.serious.length)
    (hm : X.moderate.length = Y.moderate.length)
    (hn : Y.minor.length = X.minor.length + 1) :
    calculateCompliance X ≤ calculateCompliance Y := by
  have hX : sizes X ≠ 0 := by unfold sizes; omega
  have hY : sizes Y ≠ 0 := by unfold sizes; omega
  rw [calculateCompliance_eq_round X hX, calculateCompliance_eq_round Y hY,
    hc, hs, hm, hn]
  exact round_mono_rat (scoreQ_add_critical_le_add_minor Y.critical.length
    Y.serious.length Y.moderate.length X.minor.length)

/-- C7 witness: the amended monotonicity applied to a singleton
critical set against a singleton minor set. -/
theorem C7_weighting_monotone_witness :
    (IssueSet.mk [⟨"c", "m", "error", "s", "A", "w"⟩] [] [] []).critical.length =
      (IssueSet.mk [] [] [] [⟨"d", "m", "info", "s", "AA", "w"⟩]).critical.length + 1 ∧
    (IssueSet.mk [⟨"c", "m", "error", "s", "A", "w"⟩] [] [] []).serious.length =
      (IssueSet.mk [] [] [] [⟨"d", "m", "info", "s", "AA", "w"⟩]).serious.length ∧
    (IssueSet.mk [⟨"c", "m", "error", "s", "A", "w"⟩] [] [] []).moderate.length =
      (IssueSet.mk [] [] [] [⟨"d", "m", "info", "s", "AA", "w"⟩]).moderate.length ∧
    (IssueSet.mk [] [] [] [⟨"d", "m", "info", "s", "AA", "w"⟩]).minor.length =
      (IssueSet.mk [⟨"c", "m", "error", "s", "A", "w"⟩] [] [] []).minor.length + 1 ∧
    calculateCompliance (IssueSet.mk [⟨"c", "m", "error", "s", "A", "w"⟩] [] [] []) ≤
      calculateCompliance (IssueSet.mk [] [] [] [⟨"d", "m", "info", "s", "AA", "w"⟩]) :=
  ⟨rfl, rfl, rfl, rfl,
    C7_weighting_monotone (IssueSet.mk [⟨"c", "m", "error", "s", "A", "w"⟩] [] [] [])
      (IssueSet.mk [] [] [] [⟨"d", "m", "info", "s", "AA", "w"⟩]) rfl rfl rfl rfl⟩

/-- C6: the wcagCompliance check produced by check() passes exactly
when the critical count is zero, independent of maxCriticalIssues;
with maxCriticalIssues set to 2 and one critical issue, the
criticalIssues check passes while the wcagCompliance check fails. -/
theorem C6_wcag_zero_tolerance :
    (∀ (cfg : Config) (a : AuditInput) (now : String),
      ((check cfg a now).checks.wcagCompliance.passed = true ↔ a.summary.critical = 0)) ∧
    (check ⟨"AA", "2.1", 2, 5, 15, false⟩ ⟨⟨1, 1, 0, 0, 0⟩, 0⟩
        "t").checks.criticalIssues.passed = true ∧
    (check ⟨"AA", "2.1", 2, 5, 15, false⟩ ⟨⟨1, 1, 0, 0, 0⟩, 0⟩
        "t").checks.wcagCompliance.passed = false := by
  refine ⟨fun cfg a now => ?_, by decide, by decide⟩
  simp [check, mkChecks, checkWCAGCompliance]

/-- C8 counterexample: two invocations of check() on identical audit
results and configuration, made at different clock readings, return
different ComplianceResult values because the timestamp field records
the invocation time. -/
theorem C8_timestamp_counterexample :
    check ⟨"AA", "2.1", 0, 5, 15, true⟩ ⟨⟨17, 0, 2, 5, 10⟩, 85⟩
        "2025-01-01T00:00:00.000Z" ≠
      check ⟨"AA", "2.1", 0, 5, 15, true⟩ ⟨⟨17, 0, 2, 5, 10⟩, 85⟩
        "2025-01-02T00:00:00.000Z" := by
  intro h
  exact absurd (congrArg ComplianceResult.timestamp h) (by decide)

/-- C8 amended: check() is deterministic in every field except the
timestamp: for any two invocation times the passed flag, the checks
record and the report coincide, and the timestamp equals the clock
reading of the invocation. -/
theorem C8_deterministic_modulo_timestamp (cfg : Config) (a : AuditInput)
    (t1 t2 : String) :
    (check cfg a t1).passed = (check cfg a t2).passed ∧
    (check cfg a t1).checks = (check cfg a t2).checks ∧
    (check cfg a t1).report = (check cfg a t2).report ∧
    (check cfg a t1).timestamp = t1 :=
  ⟨rfl, rfl, rfl, rfl⟩

/-- C9: report.allChecksPassed is true exactly when all four
individual checks passed; it is stricter than the overall passed
flag: with twenty moderate issues over a threshold of fifteen, no
critical or serious issues and failOnSerious off, check() yields
passed true and allChecksPassed false. -/
theorem C9_allChecksPassed_iff :
    (∀ (cfg : Config) (a : AuditInput) (now : String),
      ((check cfg a now).report.allChecksPassed = true ↔
        ((check cfg a now).checks.criticalIssues.passed = true ∧
          (check cfg a now).checks.seriousIssues.passed = true ∧
          (check cfg a now).checks.moderateIssues.passed = true ∧
          (check cfg a now).checks.wcagCompliance.passed = true))) ∧
    (check ⟨"AA", "2.1", 0, 5, 15, false⟩ ⟨⟨20, 0, 0, 20, 0⟩, 81⟩ "t").passed = true ∧
    (check ⟨"AA", "2.1", 0, 5, 15, false⟩ ⟨⟨20, 0, 0, 20, 0⟩, 81⟩
        "t").report.allChecksPassed = false := by
  refine ⟨fun cfg a now => ?_, by decide, by decide⟩
  simp [check, mkChecks, generateComplianceReport, checkEntries, List.all,
    CheckEntry.passed, Bool.and_eq_true, and_assoc]

end BankAudit
